import Mathlib

/-!
Shallow embedding of the todo-app backend (`src/todo-app/backend/server.js`).

The server keeps an ordered collection of todo items in a single JSON file.
Every handler performs a full read-modify-write cycle:
`readTodos` parses the whole file (returning `[]` on any read/parse error),
the handler mutates the in-memory array, and `writeTodos` rewrites the file.

The embedding has two levels:

* a JSON-value level (`JValue`, `FileState`, `readTodos`, `writeTodos`)
  modelling the store accessor, where file contents are JSON values and
  read failures are explicit states; `JSON.stringify`/`JSON.parse` round
  tripping of JSON-representable values is modelled by storing the parsed
  value itself;
* a handler level, where the parsed collection is a `List Todo` and each
  route handler is a pure function from the request data and the current
  collection to an HTTP response, the collection that results, and whether
  a write to the store was performed.

Request-body fields are modelled as `Option JValue` (`none` = the field is
absent, i.e. `undefined` after destructuring), because the JavaScript
handlers accept arbitrary JSON in `text` and `completed`: JavaScript
truthiness and the fact that `.trim()` throws a `TypeError` on non-strings
(caught by the handler's `catch`, yielding a generic 500 response) are
modelled explicitly.
-/

namespace TodoApp

/-- JSON values, as produced by `JSON.parse` / consumed by `JSON.stringify`.
Numbers are modelled as integers; none of the verified behaviour depends on
non-integral numbers. -/
inductive JValue where
  | jnull : JValue
  | jbool : Bool → JValue
  | jnum : Int → JValue
  | jstr : String → JValue
  | jarr : List JValue → JValue
  | jobj : List (String × JValue) → JValue

/-- JavaScript truthiness of a JSON value (`!v` is `!truthy v`).
`null`, `false`, `0` and `""` are falsy; arrays and objects are truthy. -/
def truthy : JValue → Bool
  | .jnull => false
  | .jbool b => b
  | .jnum n => n != 0
  | .jstr s => s != ""
  | .jarr _ => true
  | .jobj _ => true

/-- Whether a JSON value is a string (only strings have a `.trim` method;
calling `.trim()` on anything else throws a `TypeError`). -/
def isString : JValue → Bool
  | .jstr _ => true
  | _ => false

/-- Whether a JSON value is a boolean. -/
def isBool : JValue → Bool
  | .jbool _ => true
  | _ => false

/-- JavaScript `String.prototype.trim()`: the string with leading and
trailing whitespace removed (modelled on ASCII whitespace, which covers
every string this development evaluates). -/
def jsTrim (s : String) : String :=
  ⟨((s.data.dropWhile Char.isWhitespace).reverse.dropWhile
      Char.isWhitespace).reverse⟩

/-- A todo item as stored in `data.json`.  `completed` is a `JValue`
because the update handler stores the request's `completed` value verbatim,
whatever its JSON type.  `updatedAt` is `none` until the first update (the
key is absent from the object). -/
structure Todo where
  id : String
  text : String
  completed : JValue
  createdAt : String
  updatedAt : Option String

instance : Inhabited Todo := ⟨⟨"", "", .jbool false, "", none⟩⟩

/-- The JSON object a `Todo` is serialized to, keys in insertion order;
`updatedAt` is omitted while unset, exactly as `JSON.stringify` omits an
absent property. -/
def encodeTodo (t : Todo) : JValue :=
  .jobj ([("id", .jstr t.id), ("text", .jstr t.text),
          ("completed", t.completed), ("createdAt", .jstr t.createdAt)] ++
         (match t.updatedAt with
          | none => []
          | some u => [("updatedAt", .jstr u)]))

/-- `{ "error": msg }`, the body of every failure response. -/
def errBody (msg : String) : JValue :=
  .jobj [("error", .jstr msg)]

/-- An HTTP response: status code and JSON body. -/
structure HttpResponse where
  status : Nat
  body : JValue

/-- Outcome of one handler invocation: the response sent, the collection
as it is persisted afterwards (unchanged when no write happened), and
whether `writeTodos` was invoked at all. -/
structure HandlerResult where
  resp : HttpResponse
  newTodos : List Todo
  wrote : Bool

/-- `generateId` from the server: `Date.now().toString()` concatenated with
a random base-36 suffix.  The current time (in ms) and the suffix produced
by `Math.random().toString(36).substr(2, 9)` are parameters of the model. -/
def generateId (nowMs : Nat) (rand : String) : String :=
  toString nowMs ++ rand

/-- The `POST /api/todos` handler.  `bodyText` is `req.body.text`
(`none` when absent).  Mirrors the source: `if (!text || text.trim() === "")`
fails with 400 "Todo text is required"; a truthy non-string `text` makes
`text.trim()` throw, which the `catch` turns into a 500; otherwise the new
item (fresh id, trimmed text, `completed:false`, `createdAt` = now, no
`updatedAt`) is pushed onto the collection, the collection is written, and
the item is returned with status 201. -/
def createTodo (bodyText : Option JValue) (nowMs : Nat) (rand : String)
    (nowIso : String) (todos : List Todo) : HandlerResult :=
  match bodyText with
  | none => ⟨⟨400, errBody "Todo text is required"⟩, todos, false⟩
  | some t =>
    if truthy t then
      match t with
      | .jstr s =>
        if jsTrim s == "" then
          ⟨⟨400, errBody "Todo text is required"⟩, todos, false⟩
        else
          let newTodo : Todo :=
            ⟨generateId nowMs rand, jsTrim s, .jbool false, nowIso, none⟩
          ⟨⟨201, encodeTodo newTodo⟩, todos ++ [newTodo], true⟩
      | _ => ⟨⟨500, errBody "Failed to create todo"⟩, todos, false⟩
    else
      ⟨⟨400, errBody "Todo text is required"⟩, todos, false⟩

/-- The in-place mutation performed by the update handler on the matched
item: `text` and `completed` are overwritten when supplied, and
`updatedAt` is set unconditionally. -/
def applyUpdate (old : Todo) (newText : Option String)
    (newCompleted : Option JValue) (nowIso : String) : Todo :=
  { old with
    text := newText.getD old.text
    completed := newCompleted.getD old.completed
    updatedAt := some nowIso }

/-- The `PUT /api/todos/:id` handler.  Mirrors the source order exactly:
`findIndex` on the id first (404 when absent); then, when `text` is
present, `text.trim()` — a 400 when it is empty, a thrown `TypeError`
(caught, 500) when `text` is not a string; then the mutations are applied,
`updatedAt` is set, the collection is written and the updated item
returned. -/
def updateTodo (id : String) (bodyText bodyCompleted : Option JValue)
    (nowIso : String) (todos : List Todo) : HandlerResult :=
  match todos.findIdx? (fun todo => todo.id == id) with
  | none => ⟨⟨404, errBody "Todo not found"⟩, todos, false⟩
  | some todoIndex =>
    match bodyText with
    | some (.jstr s) =>
      if jsTrim s == "" then
        ⟨⟨400, errBody "Todo text cannot be empty"⟩, todos, false⟩
      else
        let updated :=
          applyUpdate (todos.getD todoIndex default) (some (jsTrim s))
            bodyCompleted nowIso
        ⟨⟨200, encodeTodo updated⟩, todos.set todoIndex updated, true⟩
    | some _ => ⟨⟨500, errBody "Failed to update todo"⟩, todos, false⟩
    | none =>
      let updated :=
        applyUpdate (todos.getD todoIndex default) none bodyCompleted nowIso
      ⟨⟨200, encodeTodo updated⟩, todos.set todoIndex updated, true⟩

/-- The `DELETE /api/todos/:id` handler: `findIndex` on the id (404 when
absent), `splice(todoIndex, 1)` removes exactly the matched element, the
collection is written, and the removed item is echoed with a confirmation
message. -/
def deleteTodo (id : String) (todos : List Todo) : HandlerResult :=
  match todos.findIdx? (fun todo => todo.id == id) with
  | none => ⟨⟨404, errBody "Todo not found"⟩, todos, false⟩
  | some todoIndex =>
    let deletedTodo := todos.getD todoIndex default
    ⟨⟨200, .jobj [("message", .jstr "Todo deleted successfully"),
                  ("todo", encodeTodo deletedTodo)]⟩,
     todos.eraseIdx todoIndex, true⟩

/-- State of the backing file `data.json` as seen by the store accessor:
missing, unreadable, readable but not valid JSON (so `JSON.parse` throws),
or readable with `JSON.parse` succeeding on the value `v`. -/
inductive FileState where
  | absent : FileState
  | unreadable : FileState
  | invalidJson : FileState
  | json : JValue → FileState

/-- `readTodos` from the server: read and `JSON.parse` the data file,
returning the parsed value verbatim; any error (missing file, read error,
parse error) is caught and an empty array is returned instead. -/
def readTodos : FileState → JValue
  | .json v => v
  | _ => .jarr []

/-- `writeTodos` applied to an arbitrary JSON value: the file afterwards
holds exactly that value (stringify followed by parse is the identity on
JSON-representable values). -/
def writeTodosVal (v : JValue) : FileState :=
  .json v

/-- `writeTodos` from the server applied to a collection of items:
serializes the whole collection and replaces the file contents. -/
def writeTodos (todos : List Todo) : FileState :=
  writeTodosVal (.jarr (todos.map encodeTodo))

/-- Every item of a collection has a boolean `completed` field. -/
def allCompletedBool (todos : List Todo) : Bool :=
  todos.all (fun t => isBool t.completed)

/-! ## Helper lemmas -/

/-- A collection whose members all lie in a collection with all-boolean
`completed` fields itself has all-boolean `completed` fields. -/
theorem allCompletedBool_of_subset {l l2 : List Todo}
    (hsub : ∀ t ∈ l2, t ∈ l) (h : allCompletedBool l = true) :
    allCompletedBool l2 = true := by
  simp only [allCompletedBool, List.all_eq_true] at h ⊢
  exact fun t ht => h t (hsub t ht)

/-- Overwriting one position with an item whose `completed` is boolean
preserves the all-boolean invariant. -/
theorem allCompletedBool_set {todos : List Todo} {i : Nat} {u : Todo}
    (h : allCompletedBool todos = true) (hu : isBool u.completed = true) :
    allCompletedBool (todos.set i u) = true := by
  simp only [allCompletedBool, List.all_eq_true] at h ⊢
  intro t ht
  rcases List.mem_or_eq_of_mem_set ht with h1 | rfl
  · exact h t h1
  · exact hu

/-- `findIndex` returns no index when no item carries the requested id. -/
theorem find_none_of_no_id (id : String) (todos : List Todo)
    (hid : ∀ t ∈ todos, t.id ≠ id) :
    todos.findIdx? (fun todo => todo.id == id) = none := by
  simp only [List.findIdx?_eq_none_iff]
  intro x hx
  simpa using hid x hx

/-- The digit accumulator of `Nat.toDigitsCore` never shrinks. -/
theorem toDigitsCore_length_le (b : Nat) :
    ∀ (f n : Nat) (l : List Char),
      l.length ≤ (Nat.toDigitsCore b f n l).length := by
  intro f
  induction f with
  | zero =>
    intro n l
    simp [Nat.toDigitsCore]
  | succ f ih =>
    intro n l
    simp only [Nat.toDigitsCore]
    split
    · simp
    · exact Nat.le_trans (Nat.le_succ _)
        (by simpa using ih (n / b) (Nat.digitChar (n % b) :: l))

/-- The decimal digit list of a natural number is never empty. -/
theorem toDigits_ne_nil (b n : Nat) : Nat.toDigits b n ≠ [] := by
  unfold Nat.toDigits
  simp only [Nat.toDigitsCore]
  split
  · simp
  · intro h
    have hlen := toDigitsCore_length_le b n (n / b) [Nat.digitChar (n % b)]
    rw [h] at hlen
    simp at hlen

/-- The decimal representation of a natural number is a non-empty string. -/
theorem natRepr_ne_empty (n : Nat) : Nat.repr n ≠ "" := by
  intro h
  apply toDigits_ne_nil 10 n
  have hdata : (Nat.toDigits 10 n).asString.data = "".data := by
    rw [← h]
    rfl
  simpa [List.asString] using hdata

/-- `generateId` always produces a non-empty string: it starts with the
decimal representation of the timestamp. -/
theorem generateId_ne_empty (nowMs : Nat) (rand : String) :
    generateId nowMs rand ≠ "" := by
  intro h
  apply natRepr_ne_empty nowMs
  have hlen : (toString nowMs ++ rand).length = 0 := by
    rw [show toString nowMs ++ rand = generateId nowMs rand from rfl, h]
    rfl
  rw [String.length_append] at hlen
  have hz : (toString nowMs).length = 0 := Nat.eq_zero_of_add_eq_zero_right hlen
  have hdata : (Nat.repr nowMs).data.length = 0 := hz
  have hnil : (Nat.repr nowMs).data = [] := List.length_eq_zero.mp hdata
  show Nat.repr nowMs = ""
  exact String.ext hnil

/-! ## Claim theorems -/

/-- C1: for every collection containing an item with the given id, an
update whose `text` is present and trims to the empty string fails with
the `ValidationError` response (400, "Todo text cannot be empty"); the
collection is returned unchanged and no write occurs — also when the same
request carries a `completed` value. -/
theorem update_blank_text_rejected (id s : String)
    (bodyCompleted : Option JValue) (nowIso : String) (todos : List Todo)
    (hmem : ∃ t ∈ todos, t.id = id) (htrim : jsTrim s = "") :
    updateTodo id (some (.jstr s)) bodyCompleted nowIso todos =
      ⟨⟨400, errBody "Todo text cannot be empty"⟩, todos, false⟩ := by
  obtain ⟨t, ht, hid⟩ := hmem
  obtain ⟨i, hfind⟩ :
      ∃ i, todos.findIdx? (fun todo => todo.id == id) = some i := by
    have hsome : (todos.findIdx? (fun todo => todo.id == id)).isSome = true := by
      rw [List.findIdx?_isSome, List.any_eq_true]
      exact ⟨t, ht, by simp [hid]⟩
    exact Option.isSome_iff_exists.mp hsome
  unfold updateTodo
  rw [hfind]
  simp [htrim]

/-- Witness for C1: updating the item "a" with blank text and
`completed:true` yields the 400 response and leaves the collection
untouched. -/
theorem update_blank_text_rejected_witness :
    (∃ t ∈ [(⟨"a", "x", .jbool false, "c0", none⟩ : Todo)], t.id = "a") ∧
    jsTrim "  " = "" ∧
    updateTodo "a" (some (.jstr "  ")) (some (.jbool true)) "T1"
        [⟨"a", "x", .jbool false, "c0", none⟩] =
      ⟨⟨400, errBody "Todo text cannot be empty"⟩,
       [⟨"a", "x", .jbool false, "c0", none⟩], false⟩ :=
  ⟨⟨_, List.mem_singleton_self _, rfl⟩, rfl,
   update_blank_text_rejected "a" "  " (some (.jbool true)) "T1"
     [⟨"a", "x", .jbool false, "c0", none⟩]
     ⟨_, List.mem_singleton_self _, rfl⟩ rfl⟩

/-- C2 counterexample: starting from a collection where every `completed`
is boolean, an update whose `completed` is the string "yes" stores that
non-boolean value and persists it (the handler performs the write), so the
claimed all-boolean invariant is not preserved by update. -/
theorem update_nonbool_completed_cex :
    allCompletedBool [⟨"a", "x", .jbool false, "c0", none⟩] = true ∧
    isBool (.jstr "yes") = false ∧
    (updateTodo "a" none (some (.jstr "yes")) "T1"
        [⟨"a", "x", .jbool false, "c0", none⟩]).wrote = true ∧
    allCompletedBool (updateTodo "a" none (some (.jstr "yes")) "T1"
        [⟨"a", "x", .jbool false, "c0", none⟩]).newTodos = false :=
  ⟨rfl, rfl, rfl, rfl⟩

/-- C2 amended: create always stores the boolean `false` in `completed`,
and update stores the request's `completed` value verbatim, so the
all-boolean invariant is preserved by create, delete, and every update
whose `completed` value is absent or itself a boolean (the code performs
no type check). -/
theorem completed_bool_invariant (todos : List Todo) (id : String)
    (bodyText bodyCompleted : Option JValue) (nowMs : Nat)
    (rand nowIso : String)
    (h : allCompletedBool todos = true)
    (hbc : ∀ v, bodyCompleted = some v → isBool v = true) :
    allCompletedBool (createTodo bodyText nowMs rand nowIso todos).newTodos
      = true ∧
    allCompletedBool (updateTodo id bodyText bodyCompleted nowIso todos).newTodos
      = true ∧
    allCompletedBool (deleteTodo id todos).newTodos = true := by
  refine ⟨?_, ?_, ?_⟩
  · unfold createTodo
    split
    · exact h
    · split
      · split
        · split
          · exact h
          · simp only [allCompletedBool, List.all_append] at h ⊢
            rw [h]
            simp [isBool]
        · exact h
      · exact h
  · unfold updateTodo
    split
    · exact h
    · next i heq =>
      have hlt : i < todos.length :=
        (List.findIdx?_eq_some_iff_findIdx_eq.mp heq).1
      have hmem : todos.getD i default ∈ todos := by
        rw [List.getD_eq_getElem?_getD, List.getElem?_eq_getElem hlt]
        exact List.getElem_mem hlt
      have hub : ∀ newText, isBool
          ((applyUpdate (todos.getD i default) newText
              bodyCompleted nowIso).completed) = true := by
        intro newText
        cases hbc2 : bodyCompleted with
        | some v => simpa [applyUpdate] using hbc v hbc2
        | none =>
          simp only [applyUpdate, Option.getD_none]
          exact (List.all_eq_true.mp h) _ hmem
      split
      · split
        · exact h
        · exact allCompletedBool_set h (hub _)
      · exact h
      · exact allCompletedBool_set h (hub _)
  · unfold deleteTodo
    split
    · exact h
    · exact allCompletedBool_of_subset
        (fun t ht => List.mem_of_mem_eraseIdx ht) h

/-- Witness for C2 amended: on a one-item all-boolean collection, create,
a boolean-valued update, and delete all preserve the invariant. -/
theorem completed_bool_invariant_witness :
    allCompletedBool [⟨"a", "x", .jbool false, "c0", none⟩] = true ∧
    (allCompletedBool (createTodo (some (.jstr " hi ")) 1 "r1" "T0"
        [⟨"a", "x", .jbool false, "c0", none⟩]).newTodos = true ∧
     allCompletedBool (updateTodo "a" (some (.jstr " hi "))
        (some (.jbool true)) "T0"
        [⟨"a", "x", .jbool false, "c0", none⟩]).newTodos = true ∧
     allCompletedBool (deleteTodo "a"
        [⟨"a", "x", .jbool false, "c0", none⟩]).newTodos = true) :=
  ⟨rfl,
   completed_bool_invariant [⟨"a", "x", .jbool false, "c0", none⟩] "a"
     (some (.jstr " hi ")) (some (.jbool true)) 1 "r1" "T0" rfl
     (fun v hv => by
       injection hv with h2
       subst h2
       rfl)⟩

/-- C3: for every text input that is non-blank after trimming and every
prior collection, when the generated id does not collide with an existing
id (the uniqueness the time-plus-randomness generator is relied upon for),
create appends exactly one new item at the end of the collection — text
equal to the trimmed input, `completed` false, no `updatedAt` — persists
it, returns it with status 201, and the id is a non-empty string distinct
from every prior id. -/
theorem create_appends_new_item (s : String) (nowMs : Nat)
    (rand nowIso : String) (todos : List Todo)
    (htrim : jsTrim s ≠ "")
    (hfresh : ∀ t ∈ todos, t.id ≠ generateId nowMs rand) :
    createTodo (some (.jstr s)) nowMs rand nowIso todos =
      ⟨⟨201, encodeTodo
          ⟨generateId nowMs rand, jsTrim s, .jbool false, nowIso, none⟩⟩,
       todos ++ [⟨generateId nowMs rand, jsTrim s, .jbool false, nowIso, none⟩],
       true⟩ ∧
    generateId nowMs rand ≠ "" ∧
    (∀ t ∈ todos, t.id ≠ generateId nowMs rand) := by
  have hs : s ≠ "" := by
    intro hempty
    subst hempty
    exact htrim rfl
  refine ⟨?_, generateId_ne_empty nowMs rand, hfresh⟩
  simp [createTodo, truthy, hs, htrim]

/-- Witness for C3: creating " buy milk " on a one-item collection appends
the trimmed item with the fresh id "99r1". -/
theorem create_appends_new_item_witness :
    jsTrim " buy milk " ≠ "" ∧
    (∀ t ∈ [(⟨"a", "x", .jbool false, "c0", none⟩ : Todo)],
      t.id ≠ generateId 99 "r1") ∧
    (createTodo (some (.jstr " buy milk ")) 99 "r1" "T0"
        [⟨"a", "x", .jbool false, "c0", none⟩] =
      ⟨⟨201, encodeTodo
          ⟨generateId 99 "r1", jsTrim " buy milk ", .jbool false, "T0", none⟩⟩,
       [⟨"a", "x", .jbool false, "c0", none⟩,
        ⟨generateId 99 "r1", jsTrim " buy milk ", .jbool false, "T0", none⟩],
       true⟩ ∧
     generateId 99 "r1" ≠ "" ∧
     (∀ t ∈ [(⟨"a", "x", .jbool false, "c0", none⟩ : Todo)],
       t.id ≠ generateId 99 "r1")) :=
  ⟨by decide, by decide,
   create_appends_new_item " buy milk " 99 "r1" "T0"
     [⟨"a", "x", .jbool false, "c0", none⟩] (by decide) (by decide)⟩

/-- C4: every successful update of a known id (text and/or completed
present, or neither) responds 200, writes, keeps the collection length,
leaves every other item untouched, and replaces the matched item with one
whose `id` and `createdAt` are unchanged, whose unsupplied fields are
unchanged, and whose `updatedAt` is the current time. -/
theorem update_success_frame (id : String)
    (bodyText bodyCompleted : Option JValue) (nowIso : String)
    (todos : List Todo) (i : Nat) (old : Todo)
    (hfind : todos.findIdx? (fun todo => todo.id == id) = some i)
    (hold : todos[i]? = some old)
    (hbt : bodyText = none ∨ ∃ s, bodyText = some (.jstr s) ∧ jsTrim s ≠ "") :
    (updateTodo id bodyText bodyCompleted nowIso todos).resp.status = 200 ∧
    (updateTodo id bodyText bodyCompleted nowIso todos).wrote = true ∧
    (updateTodo id bodyText bodyCompleted nowIso todos).newTodos.length
      = todos.length ∧
    (∀ j, j ≠ i →
      (updateTodo id bodyText bodyCompleted nowIso todos).newTodos[j]?
        = todos[j]?) ∧
    (updateTodo id bodyText bodyCompleted nowIso todos).newTodos[i]? = some
      { id := old.id
        text := match bodyText with | some (.jstr s) => jsTrim s | _ => old.text
        completed := bodyCompleted.getD old.completed
        createdAt := old.createdAt
        updatedAt := some nowIso } := by
  have hlt : i < todos.length := (List.getElem?_eq_some_iff.mp hold).1
  have hred : updateTodo id bodyText bodyCompleted nowIso todos =
      ⟨⟨200, encodeTodo (applyUpdate old
          (match bodyText with | some (.jstr s) => some (jsTrim s) | _ => none)
          bodyCompleted nowIso)⟩,
       todos.set i (applyUpdate old
          (match bodyText with | some (.jstr s) => some (jsTrim s) | _ => none)
          bodyCompleted nowIso), true⟩ := by
    rcases hbt with hbt | ⟨s, hbt, htrim⟩ <;> subst hbt
    · simp [updateTodo, hfind, hold]
    · simp [updateTodo, hfind, hold, htrim]
  rw [hred]
  refine ⟨rfl, rfl, List.length_set .., ?_, ?_⟩
  · intro j hj
    exact List.getElem?_set_ne (fun hij => hj hij.symm)
  · rw [List.getElem?_set_self hlt]
    rcases hbt with hbt | ⟨s, hbt, htrim⟩ <;> subst hbt <;> rfl

/-- Witness for C4: updating item "b" of a two-item collection with text
" z " and `completed:false` gives a 200, a write, leaves item "a" alone
and rewrites exactly item "b". -/
theorem update_success_frame_witness :
    ([(⟨"a", "x", .jbool false, "c0", none⟩ : Todo),
      ⟨"b", "y", .jbool true, "c1", none⟩].findIdx?
        (fun todo => todo.id == "b") = some 1) ∧
    ([(⟨"a", "x", .jbool false, "c0", none⟩ : Todo),
      ⟨"b", "y", .jbool true, "c1", none⟩][1]? =
        some ⟨"b", "y", .jbool true, "c1", none⟩) ∧
    jsTrim " z " ≠ "" ∧
    (updateTodo "b" (some (.jstr " z ")) (some (.jbool false)) "T1"
        [⟨"a", "x", .jbool false, "c0", none⟩,
         ⟨"b", "y", .jbool true, "c1", none⟩]).resp.status = 200 ∧
    (updateTodo "b" (some (.jstr " z ")) (some (.jbool false)) "T1"
        [⟨"a", "x", .jbool false, "c0", none⟩,
         ⟨"b", "y", .jbool true, "c1", none⟩]).newTodos[0]? =
      some ⟨"a", "x", .jbool false, "c0", none⟩ ∧
    (updateTodo "b" (some (.jstr " z ")) (some (.jbool false)) "T1"
        [⟨"a", "x", .jbool false, "c0", none⟩,
         ⟨"b", "y", .jbool true, "c1", none⟩]).newTodos[1]? =
      some ⟨"b", "z", .jbool false, "c1", some "T1"⟩ :=
  ⟨rfl, rfl, by decide,
   (update_success_frame "b" (some (.jstr " z ")) (some (.jbool false)) "T1"
      [⟨"a", "x", .jbool false, "c0", none⟩,
       ⟨"b", "y", .jbool true, "c1", none⟩] 1
      ⟨"b", "y", .jbool true, "c1", none⟩ rfl rfl
      (Or.inr ⟨" z ", rfl, by decide⟩)).1,
   (update_success_frame "b" (some (.jstr " z ")) (some (.jbool false)) "T1"
      [⟨"a", "x", .jbool false, "c0", none⟩,
       ⟨"b", "y", .jbool true, "c1", none⟩] 1
      ⟨"b", "y", .jbool true, "c1", none⟩ rfl rfl
      (Or.inr ⟨" z ", rfl, by decide⟩)).2.2.2.1 0 (by decide),
   (update_success_frame "b" (some (.jstr " z ")) (some (.jbool false)) "T1"
      [⟨"a", "x", .jbool false, "c0", none⟩,
       ⟨"b", "y", .jbool true, "c1", none⟩] 1
      ⟨"b", "y", .jbool true, "c1", none⟩ rfl rfl
      (Or.inr ⟨" z ", rfl, by decide⟩)).2.2.2.2⟩

/-- C5: when no item of the collection carries the requested id, both the
update handler and the delete handler return 404 with error "Todo not
found", the collection is exactly the one passed in, and no write occurs. -/
theorem unknown_id_not_found (id : String)
    (bodyText bodyCompleted : Option JValue) (nowIso : String)
    (todos : List Todo) (hid : ∀ t ∈ todos, t.id ≠ id) :
    updateTodo id bodyText bodyCompleted nowIso todos =
      ⟨⟨404, errBody "Todo not found"⟩, todos, false⟩ ∧
    deleteTodo id todos = ⟨⟨404, errBody "Todo not found"⟩, todos, false⟩ := by
  have hfind := find_none_of_no_id id todos hid
  constructor
  · unfold updateTodo
    rw [hfind]
  · unfold deleteTodo
    rw [hfind]

/-- Witness for C5: updating or deleting the never-created id "zzz" on a
one-item collection returns 404 and performs no write. -/
theorem unknown_id_not_found_witness :
    (∀ t ∈ [(⟨"a", "x", .jbool false, "c0", none⟩ : Todo)], t.id ≠ "zzz") ∧
    (updateTodo "zzz" (some (.jstr "new")) none "T1"
        [⟨"a", "x", .jbool false, "c0", none⟩] =
      ⟨⟨404, errBody "Todo not found"⟩,
       [⟨"a", "x", .jbool false, "c0", none⟩], false⟩ ∧
     deleteTodo "zzz" [⟨"a", "x", .jbool false, "c0", none⟩] =
      ⟨⟨404, errBody "Todo not found"⟩,
       [⟨"a", "x", .jbool false, "c0", none⟩], false⟩) :=
  ⟨by decide,
   unknown_id_not_found "zzz" (some (.jstr "new")) none "T1"
     [⟨"a", "x", .jbool false, "c0", none⟩] (by decide)⟩

/-- C6: deleting a known id removes exactly the matched item — the result
is the prefix before it appended to the suffix after it, so the relative
order of the remaining items is preserved and the length drops by exactly
one — the result is written, and the removed item is returned together
with the confirmation message. -/
theorem delete_removes_exactly (id : String) (todos : List Todo)
    (i : Nat) (t : Todo)
    (hfind : todos.findIdx? (fun todo => todo.id == id) = some i)
    (ht : todos[i]? = some t) :
    deleteTodo id todos =
      ⟨⟨200, .jobj [("message", .jstr "Todo deleted successfully"),
                    ("todo", encodeTodo t)]⟩,
       todos.eraseIdx i, true⟩ ∧
    todos.eraseIdx i = todos.take i ++ todos.drop (i + 1) ∧
    (todos.eraseIdx i).length + 1 = todos.length := by
  have hlt : i < todos.length := (List.getElem?_eq_some_iff.mp ht).1
  refine ⟨?_, List.eraseIdx_eq_take_drop_succ .., ?_⟩
  · simp [deleteTodo, hfind, ht]
  · rw [List.length_eraseIdx_of_lt hlt]
    omega

/-- Witness for C6: deleting "a" from a two-item collection leaves exactly
the other item and echoes the removed one. -/
theorem delete_removes_exactly_witness :
    ([(⟨"a", "x", .jbool false, "c0", none⟩ : Todo),
      ⟨"b", "y", .jbool true, "c1", none⟩].findIdx?
        (fun todo => todo.id == "a") = some 0) ∧
    ([(⟨"a", "x", .jbool false, "c0", none⟩ : Todo),
      ⟨"b", "y", .jbool true, "c1", none⟩][0]? =
        some ⟨"a", "x", .jbool false, "c0", none⟩) ∧
    (deleteTodo "a" [⟨"a", "x", .jbool false, "c0", none⟩,
                     ⟨"b", "y", .jbool true, "c1", none⟩] =
      ⟨⟨200, .jobj [("message", .jstr "Todo deleted successfully"),
                    ("todo", encodeTodo ⟨"a", "x", .jbool false, "c0", none⟩)]⟩,
       [⟨"b", "y", .jbool true, "c1", none⟩], true⟩ ∧
     [(⟨"a", "x", .jbool false, "c0", none⟩ : Todo),
      ⟨"b", "y", .jbool true, "c1", none⟩].eraseIdx 0 =
       [⟨"a", "x", .jbool false, "c0", none⟩,
        ⟨"b", "y", .jbool true, "c1", none⟩].take 0 ++
       [(⟨"a", "x", .jbool false, "c0", none⟩ : Todo),
        ⟨"b", "y", .jbool true, "c1", none⟩].drop 1 ∧
     ([(⟨"a", "x", .jbool false, "c0", none⟩ : Todo),
       ⟨"b", "y", .jbool true, "c1", none⟩].eraseIdx 0).length + 1 =
       [(⟨"a", "x", .jbool false, "c0", none⟩ : Todo),
        ⟨"b", "y", .jbool true, "c1", none⟩].length) :=
  ⟨rfl, rfl,
   delete_removes_exactly "a"
     [⟨"a", "x", .jbool false, "c0", none⟩,
      ⟨"b", "y", .jbool true, "c1", none⟩] 0
     ⟨"a", "x", .jbool false, "c0", none⟩ rfl rfl⟩

/-- C7: reading back a persisted collection yields exactly the ordered
encoded sequence, and each failure state of the backing file — absent,
unreadable, or malformed (unparsable) content — makes `readTodos` return
the empty array instead of failing. -/
theorem readTodos_contract (todos : List Todo) :
    readTodos (writeTodos todos) = .jarr (todos.map encodeTodo) ∧
    readTodos .absent = .jarr [] ∧
    readTodos .unreadable = .jarr [] ∧
    readTodos .invalidJson = .jarr [] :=
  ⟨rfl, rfl, rfl, rfl⟩

/-- C8: create fails with the same `ValidationError` response (400, "Todo
text is required") and leaves the collection unchanged with no write, both
for a `text` that trims to empty (covers `""` and whitespace-only strings)
and for an absent `text`. -/
theorem create_invalid_text_rejected (s : String) (nowMs : Nat)
    (rand nowIso : String) (todos : List Todo) (htrim : jsTrim s = "") :
    createTodo (some (.jstr s)) nowMs rand nowIso todos =
      ⟨⟨400, errBody "Todo text is required"⟩, todos, false⟩ ∧
    createTodo none nowMs rand nowIso todos =
      ⟨⟨400, errBody "Todo text is required"⟩, todos, false⟩ := by
  refine ⟨?_, rfl⟩
  by_cases hs : s = ""
  · subst hs
    rfl
  · simp [createTodo, truthy, hs, htrim]

/-- Witness for C8: creating with the whitespace-only text "   " (and with
no text at all) is rejected with the same 400 response on a one-item
collection, whose length is unchanged. -/
theorem create_invalid_text_rejected_witness :
    jsTrim "   " = "" ∧
    (createTodo (some (.jstr "   ")) 1 "r1" "T0"
        [⟨"a", "x", .jbool false, "c0", none⟩] =
      ⟨⟨400, errBody "Todo text is required"⟩,
       [⟨"a", "x", .jbool false, "c0", none⟩], false⟩ ∧
     createTodo none 1 "r1" "T0" [⟨"a", "x", .jbool false, "c0", none⟩] =
      ⟨⟨400, errBody "Todo text is required"⟩,
       [⟨"a", "x", .jbool false, "c0", none⟩], false⟩) :=
  ⟨rfl, create_invalid_text_rejected "   " 1 "r1" "T0"
     [⟨"a", "x", .jbool false, "c0", none⟩] rfl⟩

/-- C9: writing back whatever was just read is idempotent — for every
state of the backing file, a subsequent read returns exactly what the
first read returned. -/
theorem write_read_roundtrip (st : FileState) :
    readTodos (writeTodosVal (readTodos st)) = readTodos st := by
  cases st <;> rfl

/-- C10 counterexample: an update request with the truthy non-string text
5 on an id that matches no item is answered 404, not with the generic 500
failure the claim asserts for every such request. -/
theorem nonstring_text_404_cex :
    truthy (.jnum 5) = true ∧ isString (.jnum 5) = false ∧
    (updateTodo "x" (some (.jnum 5)) none "T1" []).resp.status = 404 ∧
    (updateTodo "x" (some (.jnum 5)) none "T1" []).resp.status ≠ 500 :=
  ⟨rfl, rfl, rfl, by decide⟩

/-- C10 amended: a present, truthy, non-string `text` makes `.trim()`
throw inside the handler, so create — and update whenever the id matches
an existing item (an unknown id is answered 404 before `text` is
examined) — answers with the generic 500 response, never a 400
`ValidationError`, and the collection is unchanged with no write. -/
theorem nonstring_text_server_error (v : JValue)
    (bodyCompleted : Option JValue) (id : String) (nowMs : Nat)
    (rand nowIso : String) (ctodos utodos : List Todo) (i : Nat)
    (htruthy : truthy v = true) (hstr : isString v = false)
    (hfind : utodos.findIdx? (fun todo => todo.id == id) = some i) :
    createTodo (some v) nowMs rand nowIso ctodos =
      ⟨⟨500, errBody "Failed to create todo"⟩, ctodos, false⟩ ∧
    updateTodo id (some v) bodyCompleted nowIso utodos =
      ⟨⟨500, errBody "Failed to update todo"⟩, utodos, false⟩ := by
  cases v with
  | jnull => exact absurd htruthy (by simp [truthy])
  | jstr s => exact absurd hstr (by simp [isString])
  | jbool b =>
    exact ⟨by simp [createTodo, htruthy], by simp [updateTodo, hfind]⟩
  | jnum n =>
    exact ⟨by simp [createTodo, htruthy], by simp [updateTodo, hfind]⟩
  | jarr l =>
    exact ⟨by simp [createTodo, htruthy], by simp [updateTodo, hfind]⟩
  | jobj fields =>
    exact ⟨by simp [createTodo, htruthy], by simp [updateTodo, hfind]⟩

/-- Witness for C10 amended: text = 5 (a number) yields the 500 create
response on the empty collection and the 500 update response on the
collection whose item "a" is the update target, with no change to
either. -/
theorem nonstring_text_server_error_witness :
    truthy (.jnum 5) = true ∧ isString (.jnum 5) = false ∧
    ([(⟨"a", "x", .jbool false, "c0", none⟩ : Todo)].findIdx?
        (fun todo => todo.id == "a") = some 0) ∧
    (createTodo (some (.jnum 5)) 1 "r1" "T0" [] =
      ⟨⟨500, errBody "Failed to create todo"⟩, [], false⟩ ∧
     updateTodo "a" (some (.jnum 5)) none "T0"
        [⟨"a", "x", .jbool false, "c0", none⟩] =
      ⟨⟨500, errBody "Failed to update todo"⟩,
       [⟨"a", "x", .jbool false, "c0", none⟩], false⟩) :=
  ⟨rfl, rfl, rfl,
   nonstring_text_server_error (.jnum 5) none "a" 1 "r1" "T0" []
     [⟨"a", "x", .jbool false, "c0", none⟩] 0 rfl rfl rfl⟩

end TodoApp
